import Mathlib

/-!
Shallow embedding of the rosa-flowers-admin client (a React/TypeScript
admin dashboard for a flower shop) and proofs about its behaviour.

JavaScript strings are modelled as `List Char` (`Str`); ASCII
`toLowerCase`, whitespace `trim` and substring `includes` are modelled
by executable functions below.  React view components are modelled as
pure state-transition functions: each event handler becomes a function
from the component's state (plus the outcomes of the network calls it
awaits) to the new state, and the requests it issues are returned as
explicit data.  Status strings and user-visible error messages are kept
as Lean `String`s.
-/

deriving instance DecidableEq for Except

/-- JS strings are sequences of characters. -/
abbrev Str : Type := List Char

/-- Converts a Lean string literal to the `Str` model. -/
def chars (s : String) : Str := s.data

/-- ASCII model of `String.prototype.toLowerCase` on a single character. -/
def jsLower (c : Char) : Char :=
  match c with
  | 'A' => 'a' | 'B' => 'b' | 'C' => 'c' | 'D' => 'd' | 'E' => 'e' | 'F' => 'f'
  | 'G' => 'g' | 'H' => 'h' | 'I' => 'i' | 'J' => 'j' | 'K' => 'k' | 'L' => 'l'
  | 'M' => 'm' | 'N' => 'n' | 'O' => 'o' | 'P' => 'p' | 'Q' => 'q' | 'R' => 'r'
  | 'S' => 's' | 'T' => 't' | 'U' => 'u' | 'V' => 'v' | 'W' => 'w' | 'X' => 'x'
  | 'Y' => 'y' | 'Z' => 'z'
  | c => c

/-- Whitespace characters stripped by `String.prototype.trim` (ASCII part). -/
def jsSpace (c : Char) : Bool :=
  c = ' ' || c = '\t' || c = '\n' || c = '\r'

/-- `s.toLowerCase()`. -/
def lowerStr (s : Str) : Str := s.map jsLower

/-- `s.trim()`: strip whitespace from both ends. -/
def trimStr (s : Str) : Str :=
  (((s.dropWhile jsSpace).reverse).dropWhile jsSpace).reverse

/-- `hay.includes(needle)`: substring test. -/
def includes (hay needle : Str) : Bool :=
  hay.tails.any (fun t => needle.isPrefixOf t)

/-- Decimal rendering of a number, as in JS template interpolation. -/
def natChars (n : Nat) : Str := (Nat.repr n).data

/-! ### Order status workflow (src/pages/Orders.tsx)

`nextStatuses` is the static transition table; a JS object lookup on a
key outside the table yields `undefined`, rendered as "no actions
available", so the embedding returns `[]` for unknown statuses. -/

/-- The `nextStatuses` lookup table from Orders.tsx. -/
def nextStatuses (s : String) : List String :=
  if s = "new" then ["confirmed", "canceled"]
  else if s = "confirmed" then ["preparing", "canceled"]
  else if s = "preparing" then ["delivering", "canceled"]
  else if s = "delivering" then ["completed", "canceled"]
  else if s = "completed" then []
  else if s = "canceled" then []
  else []

/-- The six-element status enumeration. -/
def orderStatusEnum : List String :=
  ["new", "confirmed", "preparing", "delivering", "completed", "canceled"]

/-- The option values rendered in a row's status `<select>`: the empty
placeholder followed by one option per allowed next status. -/
def renderedOptions (status : String) : List String :=
  "" :: nextStatuses status

/-- The `onChange` guard of the status select: a status-update request
`(orderId, target)` is issued only for a non-empty chosen value. -/
def selectStatusRequest (orderId : Nat) (value : String) : Option (Nat × String) :=
  if value = "" then none else some (orderId, value)

/-- The `(orderId, target)` requests wired to the detail modal's action
buttons, one per allowed next status. -/
def modalStatusRequests (status : String) (orderId : Nat) : List (Nat × String) :=
  (nextStatuses status).map (fun s => (orderId, s))

/-! ### Orders page data model and state (src/pages/Orders.tsx) -/

/-- The `user` reference embedded in an order. -/
structure OrderUser where
  id : Nat
  firstName : Str
  lastName : Option Str
  username : Option Str
  phone : Option Str
  telegramId : Str
deriving DecidableEq, Repr

/-- A line item of an order. -/
structure OrderItem where
  id : Nat
  name : Str
  price : Int
  quantity : Nat
deriving DecidableEq, Repr

/-- An order as displayed by the Orders page. -/
structure Order where
  id : Nat
  user : OrderUser
  items : List OrderItem
  status : String
  deliveryType : String
  recipientName : Option Str
  recipientPhone : Option Str
  isAnonymous : Bool
  totalPrice : Int
  bonusUsed : Int
  bonusEarned : Int
  paymentStatus : String
  createdAt : Str
deriving DecidableEq, Repr

/-- Local state of the Orders component. -/
structure OrdersState where
  orders : List Order
  loading : Bool
  error : String
  updatingId : Option Nat
  selectedOrder : Option Order
deriving DecidableEq, Repr

/-- Outcomes of the network calls awaited by one `handleStatusChange`
invocation: the PUT (carrying `err.response?.data?.error` on failure,
`none` when the field is absent), the list re-fetch, and the detail
re-fetch of the selected order. -/
structure StatusEnv where
  putResult : Except (Option String) Unit
  listResult : Except Unit (List Order)
  detailResult : Except Unit Order
deriving DecidableEq, Repr

/-- Error message of `fetchOrders`'s catch branch. -/
def loadOrdersFailedMsg : String := "Не удалось загрузить заказы"

/-- The generic localized fallback of `handleStatusChange`'s catch branch. -/
def updateFailedMsg (orderId : Nat) : String :=
  "Не удалось обновить статус заказа #" ++ Nat.repr orderId

/-- `err.response?.data?.error || fallback`: the error field is used when
present and truthy (a non-empty string), else the fallback. -/
def displayedError (errField : Option String) (orderId : Nat) : String :=
  match errField with
  | some e => if e = "" then updateFailedMsg orderId else e
  | none => updateFailedMsg orderId

/-- `fetchOrders`: sets loading and clears the error, then either stores
the fetched list or the load-failure message. -/
def fetchOrders (st : OrdersState) (result : Except Unit (List Order)) : OrdersState :=
  match result with
  | .ok data => { st with loading := false, error := "", orders := data }
  | .error _ => { st with loading := false, error := loadOrdersFailedMsg }

/-- `handleStatusChange(orderId, newStatus)`: marks the row as updating,
clears the error, PUTs the new status; on success re-fetches the list
and, when the detail modal shows this order, re-fetches it (patching the
modal state with the requested status only if that re-fetch fails); on
failure shows the server's error field or the fallback message.  The
`finally` clause clears the updating marker. -/
def handleStatusChange (st : OrdersState) (orderId : Nat) (newStatus : String)
    (env : StatusEnv) : OrdersState :=
  let st₁ : OrdersState := { st with updatingId := some orderId, error := "" }
  match env.putResult with
  | .error errField =>
    { st₁ with error := displayedError errField orderId, updatingId := none }
  | .ok _ =>
    let st₂ := fetchOrders st₁ env.listResult
    let st₃ :=
      match st₂.selectedOrder with
      | some sel =>
        if sel.id = orderId then
          match env.detailResult with
          | .ok data => { st₂ with selectedOrder := some data }
          | .error _ => { st₂ with selectedOrder := some { sel with status := newStatus } }
        else st₂
      | none => st₂
    { st₃ with updatingId := none }

/-! ### Search filters (Orders.tsx, Loyalty.tsx, Users.tsx) -/

/-- `[firstName, lastName].filter(Boolean).join(' ')`: drop the missing or
empty parts, join the rest with a space. -/
def joinedName (firstName : Str) (lastName : Option Str) : Str :=
  List.intercalate [' ']
    ((([some firstName, lastName]).filterMap id).filter (fun p => !p.isEmpty))

/-- The Orders page search predicate: empty-after-trim matches all,
otherwise the lowercased query is matched against the rendered id, the
raw id, the lowercased joined name, the customer phone and the recipient
phone. -/
def orderMatches (search : Str) (o : Order) : Bool :=
  if trimStr search = [] then true
  else
    includes ('#' :: natChars o.id) (lowerStr search) ||
    includes (natChars o.id) (lowerStr search) ||
    includes (lowerStr (joinedName o.user.firstName o.user.lastName)) (lowerStr search) ||
    includes (o.user.phone.getD []) (lowerStr search) ||
    includes (o.recipientPhone.getD []) (lowerStr search)

/-- `filtered` of the Orders page. -/
def ordersFiltered (search : Str) (orders : List Order) : List Order :=
  orders.filter (orderMatches search)

/-- A row of the loyalty users table. -/
structure LoyaltyUser where
  id : Nat
  firstName : Option Str
  lastName : Option Str
  username : Option Str
  phone : Option Str
  bonusPoints : Int
  telegramId : Str
deriving DecidableEq, Repr

/-- The Loyalty page search predicate: empty-after-trim matches all,
otherwise the lowercased query is matched against the lowercased
`"firstName lastName"` template, the lowercased username and the raw
phone. -/
def loyaltyMatches (search : Str) (u : LoyaltyUser) : Bool :=
  if trimStr search = [] then true
  else
    includes (lowerStr ((u.firstName.getD []) ++ ' ' :: (u.lastName.getD []))) (lowerStr search) ||
    includes (lowerStr (u.username.getD [])) (lowerStr search) ||
    includes (u.phone.getD []) (lowerStr search)

/-- `filtered` of the Loyalty page. -/
def loyaltyFiltered (search : Str) (users : List LoyaltyUser) : List LoyaltyUser :=
  users.filter (loyaltyMatches search)

/-- A row of the Users page. -/
structure UserItem where
  id : Nat
  telegramId : Option Str
  maxId : Option Str
  platform : Option Str
  firstName : Option Str
  lastName : Option Str
  username : Option Str
  phone : Option Str
  bonusPoints : Int
  ordersCount : Nat
  createdAt : Str
deriving DecidableEq, Repr

/-- The Users page search predicate: like the Loyalty one, plus the raw
platform ids. -/
def userMatches (search : Str) (u : UserItem) : Bool :=
  if trimStr search = [] then true
  else
    includes (lowerStr ((u.firstName.getD []) ++ ' ' :: (u.lastName.getD []))) (lowerStr search) ||
    includes (lowerStr (u.username.getD [])) (lowerStr search) ||
    includes (u.phone.getD []) (lowerStr search) ||
    includes (u.telegramId.getD []) (lowerStr search) ||
    includes (u.maxId.getD []) (lowerStr search)

/-- `filtered` of the Users page. -/
def usersFiltered (search : Str) (users : List UserItem) : List UserItem :=
  users.filter (userMatches search)

/-! ### Loyalty adjustment (src/pages/Loyalty.tsx) -/

/-- A loyalty ledger entry as displayed in the user modal. -/
structure HistoryEntry where
  id : Nat
  amount : Int
  type : Str
  description : Option Str
  createdAt : Str
deriving DecidableEq, Repr

/-- The loyalty record the external service keeps for the selected user. -/
structure LoyaltyServer where
  balance : Int
  history : List HistoryEntry
deriving DecidableEq, Repr

/-- Modelled from the spec: the external loyalty service behind
`POST /loyalty/:id/adjust` and `GET /loyalty/:id` is not part of this
repository.  Per the spec, `adjust(userId, signedAmount, description?)`
appends one ledger entry with the signed amount and keeps the balance
equal to the running sum of ledger entries; the history endpoint returns
the ledger newest-first. -/
def serverAdjust (srv : LoyaltyServer) (amount : Int) (description : Option Str)
    (entryId : Nat) (timestamp : Str) : LoyaltyServer :=
  { balance := srv.balance + amount,
    history :=
      { id := entryId, amount := amount, type := chars ("adjustment"),
        description := description, createdAt := timestamp } :: srv.history }

/-- A decimal digit's value, else `none`. -/
def digitVal (c : Char) : Option Nat :=
  if '0' ≤ c ∧ c ≤ '9' then some (c.toNat - 48) else none

/-- Decimal digits to a number; any non-digit poisons the parse. -/
def parseDigits (s : Str) : Option Nat :=
  s.foldl
    (fun acc c =>
      match acc, digitVal c with
      | some a, some d => some (a * 10 + d)
      | _, _ => none)
    (some 0)

/-- Model of JS `Number(...)` on the signed decimal integer strings the
adjustment form produces; `none` models `NaN`. -/
def jsNumber (s : Str) : Option Int :=
  match s with
  | '-' :: rest => (parseDigits rest).map (fun n => -(n : Int))
  | _ => (parseDigits s).map (fun n => (n : Int))

/-- Local state of the Loyalty page touched by `handleAdjust`. -/
structure LoyaltyViewState where
  users : List LoyaltyUser
  selectedUser : Option LoyaltyUser
  history : List HistoryEntry
  adjustAmount : Str
  adjustDescription : Str
  error : String
  showAdjust : Bool
deriving DecidableEq, Repr

/-- Environment of one `handleAdjust` invocation: whether the awaited
calls of the `try` block succeed, the refreshed users list returned by
`fetchUsers`, the id and timestamp the service gives the new ledger
entry, and `err.response?.data?.message` on failure. -/
structure AdjustEnv where
  callsOk : Bool
  usersRefetch : List LoyaltyUser
  entryId : Nat
  timestamp : Str
  errMsg : Option String
deriving DecidableEq, Repr

/-- `err.response?.data?.message || 'Ошибка корректировки баллов'`. -/
def adjustErrorMsg (errMsg : Option String) : String :=
  match errMsg with
  | some e => if e = "" then "Ошибка корректировки баллов" else e
  | none => "Ошибка корректировки баллов"

/-- `handleAdjust`: guarded by a selected user and a non-empty amount
input; POSTs the parsed amount and trimmed description, re-fetches the
users list and the authoritative history, and optimistically increments
the selected user's displayed balance by the same amount; on failure
surfaces the server's message field or a generic fallback. -/
def handleAdjust (st : LoyaltyViewState) (srv : LoyaltyServer) (env : AdjustEnv) :
    LoyaltyViewState × LoyaltyServer :=
  match st.selectedUser with
  | none => (st, srv)
  | some u =>
    if st.adjustAmount = [] then (st, srv)
    else if env.callsOk then
      let amt := (jsNumber st.adjustAmount).getD 0
      let desc : Option Str :=
        if trimStr st.adjustDescription = [] then none else some (trimStr st.adjustDescription)
      let srv' := serverAdjust srv amt desc env.entryId env.timestamp
      ({ st with
          users := env.usersRefetch,
          history := srv'.history,
          selectedUser := some { u with bonusPoints := u.bonusPoints + amt },
          adjustAmount := [],
          adjustDescription := [],
          showAdjust := false,
          error := "" },
        srv')
    else
      ({ st with error := adjustErrorMsg env.errMsg }, srv)

/-! ### Catalog flag toggles (Bouquets.tsx, ConstructorManager.tsx) -/

/-- A bouquet row of the catalog table. -/
structure Bouquet where
  id : Nat
  name : Str
  price : Int
  category : Str
  inStock : Bool
  isHit : Bool
  isNew : Bool
  images : List Str
deriving DecidableEq, Repr

/-- The three toggleable boolean flags. -/
inductive BouquetFlag where
  | stockFlag : BouquetFlag
  | hitFlag : BouquetFlag
  | newFlag : BouquetFlag
deriving DecidableEq, Repr

/-- `{ ...b, [field]: value }` for the toggle fields. -/
def setFlag (b : Bouquet) (f : BouquetFlag) (v : Bool) : Bouquet :=
  match f with
  | .stockFlag => { b with inStock := v }
  | .hitFlag => { b with isHit := v }
  | .newFlag => { b with isNew := v }

/-- `handleToggle` of Bouquets.tsx (success path): patch the matching
record's flag in place, leaving the rest of the list as it was. -/
def handleToggle (bouquets : List Bouquet) (id : Nat) (f : BouquetFlag) (v : Bool) :
    List Bouquet :=
  bouquets.map (fun b => if b.id = id then setFlag b f v else b)

/-- A constructor catalog item (flower / greenery / packaging). -/
structure ConstructorItem where
  id : Str
  mongoId : Option Str
  name : Str
  price : Int
  inStock : Option Bool
deriving DecidableEq, Repr

/-- `item.id || item._id`: the id when it is a truthy (non-empty) string,
else the fallback `_id`. -/
def itemKey (i : ConstructorItem) : Option Str :=
  if i.id = [] then i.mongoId else some i.id

/-- JS `!` on an optional boolean (`!undefined = true`). -/
def jsNot (b : Option Bool) : Bool :=
  match b with
  | some true => false
  | _ => true

/-- `handleToggleStock` of ConstructorManager.tsx (success path): flip the
clicked item's `inStock` on the active tab's list, leaving the rest of
the list as it was. -/
def handleToggleStock (items : List ConstructorItem) (item : ConstructorItem) :
    List ConstructorItem :=
  items.map (fun i =>
    if itemKey i = itemKey item then { i with inStock := some (jsNot item.inStock) } else i)

/-! ### App startup authentication check (src/App.tsx) -/

/-- Top-level state after the startup effect: the stored token under the
key `rosa_admin_token`, the authentication flag, and how many
`GET /auth/me` requests were sent. -/
structure AppStartState where
  storedToken : Option String
  isAuth : Option Bool
  authMeRequests : Nat
deriving DecidableEq, Repr

/-- The mount effect of `App`: with no stored token the flag is set false
without any request; with a token, one `GET /auth/me` is sent, and on
failure the token is removed and the flag set false.  No retry exists in
the effect. -/
def appStartup (stored : Option String) (checkOk : Bool) : AppStartState :=
  match stored with
  | none => { storedToken := none, isAuth := some false, authMeRequests := 0 }
  | some t =>
    if checkOk then
      { storedToken := some t, isAuth := some true, authMeRequests := 1 }
    else
      { storedToken := none, isAuth := some false, authMeRequests := 1 }

/-- What the unauthenticated route table renders for a path. -/
inductive UnauthView where
  | loginScreen : UnauthView
  | navigate : String → UnauthView
deriving DecidableEq, Repr

/-- The `!isAuth` route table: `/login` renders the login screen, every
other path renders a redirect to `/login`. -/
def routeUnauthed (path : String) : UnauthView :=
  if path = "/login" then .loginScreen else .navigate ("/login")

/-- Following at most one redirect of the unauthenticated route table. -/
def resolveUnauthed (path : String) : UnauthView :=
  match routeUnauthed path with
  | .navigate target => routeUnauthed target
  | v => v

/-! ### Broadcast send (src/pages/Broadcast.tsx) -/

/-- `handleSend`: returns the payload message of the issued
`POST /broadcast` request, or `none` when no request is sent (blank
message, or the confirmation dialog dismissed). -/
def handleSend (message : Str) (confirmOk : Bool) : Option Str :=
  if trimStr message = [] then none
  else if confirmOk then some (trimStr message)
  else none

/-- `disabled={sending || !message.trim()}` on the send button. -/
def sendDisabled (sending : Bool) (message : Str) : Bool :=
  sending || (trimStr message).isEmpty

/-! ### Concrete fixtures used by witnesses and counterexamples -/

/-- A sample customer. -/
def exUser : OrderUser :=
  { id := 1, firstName := chars ("Anna"), lastName := none, username := none,
    phone := some (chars ("+79990001122")), telegramId := chars ("42") }

/-- A sample order in status `new`. -/
def exOrder : Order :=
  { id := 1, user := exUser, items := [], status := "new",
    deliveryType := "delivery", recipientName := none, recipientPhone := none,
    isAnonymous := false, totalPrice := 1000, bonusUsed := 0, bonusEarned := 0,
    paymentStatus := "pending", createdAt := chars ("2026-01-01") }

/-- Orders page state with no modal open. -/
def exOrdersState : OrdersState :=
  { orders := [exOrder], loading := false, error := "", updatingId := none,
    selectedOrder := none }

/-- Orders page state with the detail modal open on `exOrder`. -/
def exStateWithModal : OrdersState :=
  { orders := [exOrder], loading := false, error := "", updatingId := none,
    selectedOrder := some exOrder }

/-- Environment of a transition whose PUT succeeds but whose detail
re-fetch fails. -/
def exEnvDetailFail : StatusEnv :=
  { putResult := .ok (), listResult := .ok [exOrder], detailResult := .error () }

/-- Environment of a transition whose PUT fails with a present but empty
`error` field. -/
def exEnvEmptyErrField : StatusEnv :=
  { putResult := .error (some ""), listResult := .ok [], detailResult := .error () }

/-- Environment of a transition whose PUT fails with a non-empty `error`
field. -/
def exEnvServerErr : StatusEnv :=
  { putResult := .error (some "нельзя"), listResult := .ok [], detailResult := .error () }

/-- A sample loyalty user with balance 50. -/
def exLoyUser : LoyaltyUser :=
  { id := 3, firstName := some (chars ("Anna")), lastName := none,
    username := some (chars ("rose")), phone := some (chars ("+79990001122")),
    bonusPoints := 50, telegramId := chars ("42") }

/-- Loyalty page state with `exLoyUser` selected and `100` typed into the
amount field. -/
def exLoyState : LoyaltyViewState :=
  { users := [exLoyUser], selectedUser := some exLoyUser, history := [],
    adjustAmount := chars ("100"), adjustDescription := chars ("bonus"),
    error := "", showAdjust := true }

/-- The loyalty service record backing `exLoyUser`. -/
def exLoyServer : LoyaltyServer := { balance := 50, history := [] }

/-- Environment of a successful adjustment round. -/
def exAdjEnv : AdjustEnv :=
  { callsOk := true, usersRefetch := [exLoyUser], entryId := 9,
    timestamp := chars ("2026-02-02"), errMsg := none }

/-- A sample users-page row. -/
def exUserItem : UserItem :=
  { id := 5, telegramId := some (chars ("42")), maxId := none, platform := none,
    firstName := some (chars ("Anna")), lastName := none,
    username := some (chars ("rose")), phone := some (chars ("+79990001122")),
    bonusPoints := 10, ordersCount := 2, createdAt := chars ("2026-01-01") }

/-- A sample bouquet. -/
def exBouquet : Bouquet :=
  { id := 8, name := chars ("Roses"), price := 2500, category := chars ("roses"),
    inStock := true, isHit := false, isNew := true, images := [chars ("a.jpg")] }

/-- A second bouquet with a different id. -/
def exBouquet2 : Bouquet :=
  { id := 9, name := chars ("Tulips"), price := 1500, category := chars ("tulips"),
    inStock := false, isHit := true, isNew := false, images := [] }

/-- A sample constructor item. -/
def exItem : ConstructorItem :=
  { id := chars ("f1"), mongoId := none, name := chars ("Rose"), price := 150,
    inStock := some true }

/-- A second constructor item with a different key. -/
def exItem2 : ConstructorItem :=
  { id := chars ("f2"), mongoId := none, name := chars ("Fern"), price := 50,
    inStock := none }

/-! ## Theorems -/

theorem jsSpace_jsLower (c : Char) : jsSpace (jsLower c) = jsSpace c := by
  unfold jsLower
  split <;> rfl

theorem trimStr_eq_nil_iff (s : Str) : trimStr s = [] ↔ ∀ c ∈ s, jsSpace c := by
  unfold trimStr
  rw [List.reverse_eq_nil_iff, List.dropWhile_eq_nil_iff]
  constructor
  · intro h c hc
    by_cases hsp : jsSpace c = true
    · exact hsp
    · exfalso
      have hmem : c ∈ s.dropWhile jsSpace := by
        have hsplit := List.takeWhile_append_dropWhile (p := jsSpace) (l := s)
        rw [← hsplit] at hc
        rcases List.mem_append.mp hc with h1 | h1
        · exact absurd (List.mem_takeWhile_imp h1) hsp
        · exact h1
      exact hsp (h c (List.mem_reverse.mpr hmem))
  · intro h c hc
    exact h c ((List.dropWhile_sublist jsSpace).mem (List.mem_reverse.mp hc))

theorem lowerStr_trim_nil {s₁ s₂ : Str} (h : lowerStr s₁ = lowerStr s₂) :
    (trimStr s₁ = []) ↔ (trimStr s₂ = []) := by
  rw [trimStr_eq_nil_iff, trimStr_eq_nil_iff]
  have key : ∀ s : Str, (∀ c ∈ s, jsSpace c) ↔ ∀ c ∈ lowerStr s, jsSpace c := by
    intro s
    unfold lowerStr
    constructor
    · intro hall c hc
      rcases List.mem_map.mp hc with ⟨d, hd, rfl⟩
      rw [jsSpace_jsLower]
      exact hall d hd
    · intro hall c hc
      have := hall (jsLower c) (List.mem_map.mpr ⟨c, hc, rfl⟩)
      rwa [jsSpace_jsLower] at this
  rw [key s₁, key s₂, h]

/-- C1: `nextStatuses` is total and returns exactly the spec's table: the
four live statuses map to their two allowed successors, the two terminal
statuses map to the empty set, and every status string outside the
six-element enumeration also maps to the empty set. -/
theorem nextStatuses_matches_table :
    nextStatuses ("new") = ["confirmed", "canceled"] ∧
    nextStatuses ("confirmed") = ["preparing", "canceled"] ∧
    nextStatuses ("preparing") = ["delivering", "canceled"] ∧
    nextStatuses ("delivering") = ["completed", "canceled"] ∧
    nextStatuses ("completed") = [] ∧
    nextStatuses ("canceled") = [] ∧
    ∀ s : String, s ∉ orderStatusEnum → nextStatuses s = [] := by
  refine ⟨by decide, by decide, by decide, by decide, by decide, by decide, ?_⟩
  intro s hs
  unfold nextStatuses
  split_ifs with h1 h2 h3 h4 h5 h6 <;>
    first
      | rfl
      | (subst_vars; exact absurd (by decide) hs)

/-- C1 witness: an unknown status outside the enumeration yields no actions. -/
theorem nextStatuses_matches_table_witness :
    (("shipped" : String) ∉ orderStatusEnum) ∧ nextStatuses ("shipped") = [] :=
  ⟨by decide, nextStatuses_matches_table.2.2.2.2.2.2 ("shipped") (by decide)⟩

/-- C2: every status-update request the client can issue has a target in
`nextStatuses` of the order's current status: the select only offers
options drawn from `nextStatuses status` plus the filtered-out empty
placeholder, and the modal buttons are drawn from `nextStatuses status`
directly. -/
theorem statusRequests_only_allowed_targets :
    (∀ (status value : String) (orderId : Nat) (req : Nat × String),
        value ∈ renderedOptions status →
        selectStatusRequest orderId value = some req →
        req.1 = orderId ∧ req.2 ∈ nextStatuses status) ∧
    (∀ (status : String) (orderId : Nat) (req : Nat × String),
        req ∈ modalStatusRequests status orderId →
        req.1 = orderId ∧ req.2 ∈ nextStatuses status) := by
  constructor
  · intro status value orderId req hmem hreq
    unfold selectStatusRequest at hreq
    by_cases hv : value = ""
    · simp [hv] at hreq
    · rw [if_neg hv] at hreq
      rcases Option.some.injEq _ _ ▸ hreq with rfl
      refine ⟨rfl, ?_⟩
      unfold renderedOptions at hmem
      rcases List.mem_cons.mp hmem with h | h
      · exact absurd h hv
      · exact h
  · intro status orderId req hmem
    unfold modalStatusRequests at hmem
    rcases List.mem_map.mp hmem with ⟨s, hs, rfl⟩
    exact ⟨rfl, hs⟩

/-- C2 witness: choosing `"confirmed"` from the select of a `"new"` order
issues a request whose target is allowed. -/
theorem statusRequests_only_allowed_targets_witness :
    (("confirmed" : String) ∈ renderedOptions ("new")) ∧
    (selectStatusRequest 7 ("confirmed") = some (7, "confirmed")) ∧
    ((7, ("confirmed" : String)).1 = 7 ∧
      ((7, ("confirmed" : String))).2 ∈ nextStatuses ("new")) :=
  ⟨by decide, by decide,
    statusRequests_only_allowed_targets.1 ("new") ("confirmed") 7 (7, ("confirmed"))
      (by decide) (by decide)⟩

/-- C3 counterexample: a failed PUT whose response carries a present but
empty `error` field displays the generic fallback rather than the field's
value (the empty string), because `||` treats the empty string as falsy. -/
theorem statusChange_error_field_counterexample :
    exEnvEmptyErrField.putResult = Except.error (some "") ∧
    (handleStatusChange exOrdersState 1 ("confirmed") exEnvEmptyErrField).error ≠ "" ∧
    (handleStatusChange exOrdersState 1 ("confirmed") exEnvEmptyErrField).error =
      updateFailedMsg 1 := by
  refine ⟨rfl, ?_, rfl⟩
  decide

/-- C3 (amended): when a status-transition request fails, the displayed
error is the response body's `error` field when that field is present and
non-empty, and otherwise the generic localized fallback; and the orders
list and the selected order are left unchanged by the failed operation. -/
theorem statusChange_failure_frame (st : OrdersState) (orderId : Nat)
    (newStatus : String) (env : StatusEnv) (errField : Option String)
    (hfail : env.putResult = .error errField) :
    (handleStatusChange st orderId newStatus env).orders = st.orders ∧
    (handleStatusChange st orderId newStatus env).selectedOrder = st.selectedOrder ∧
    (∀ e : String, errField = some e → e ≠ "" →
      (handleStatusChange st orderId newStatus env).error = e) ∧
    ((errField = none ∨ errField = some "") →
      (handleStatusChange st orderId newStatus env).error = updateFailedMsg orderId) := by
  unfold handleStatusChange
  rw [hfail]
  refine ⟨rfl, rfl, ?_, ?_⟩
  · intro e he hne
    subst he
    simp [displayedError, hne]
  · rintro (rfl | rfl) <;> simp [displayedError]

/-- C3 witness: a failure with a non-empty server `error` field displays it
verbatim and leaves the orders list untouched. -/
theorem statusChange_failure_frame_witness :
    (exEnvServerErr.putResult = Except.error (some "нельзя")) ∧
    ((handleStatusChange exOrdersState 1 ("confirmed") exEnvServerErr).orders =
        exOrdersState.orders ∧
      (handleStatusChange exOrdersState 1 ("confirmed") exEnvServerErr).selectedOrder =
        exOrdersState.selectedOrder ∧
      (∀ e : String, some "нельзя" = some e → e ≠ "" →
        (handleStatusChange exOrdersState 1 ("confirmed") exEnvServerErr).error = e) ∧
      ((some "нельзя" = (none : Option String) ∨ some "нельзя" = some "") →
        (handleStatusChange exOrdersState 1 ("confirmed") exEnvServerErr).error =
          updateFailedMsg 1)) :=
  ⟨rfl, statusChange_failure_frame exOrdersState 1 ("confirmed") exEnvServerErr
    (some "нельзя") rfl⟩

/-- C6 counterexample: with the detail modal open on order 1 (status
`new`), a successful PUT followed by a failed detail re-fetch patches the
displayed selected order with the requested status `confirmed`, a value
taken from the client's request, not from any server response. -/
theorem statusChange_optimistic_patch_counterexample :
    exEnvDetailFail.detailResult = Except.error () ∧
    (handleStatusChange exStateWithModal 1 ("confirmed") exEnvDetailFail).selectedOrder =
      some { exOrder with status := "confirmed" } ∧
    (handleStatusChange exStateWithModal 1 ("confirmed") exEnvDetailFail).selectedOrder ≠
      exStateWithModal.selectedOrder := by
  refine ⟨rfl, rfl, ?_⟩
  decide

/-- C6 (amended): on a successful PUT the orders list always comes from
the list re-fetch (or stays unchanged when that re-fetch fails) and is
never patched with the requested status; the selected-order modal state
comes from the detail re-fetch when that succeeds, and only when the
detail re-fetch fails is it patched with the requested status. -/
theorem statusChange_success_refetch (st : OrdersState) (orderId : Nat)
    (newStatus : String) (lr : Except Unit (List Order)) (dr : Except Unit Order) :
    (∀ l : List Order, lr = .ok l →
      (handleStatusChange st orderId newStatus ⟨.ok (), lr, dr⟩).orders = l) ∧
    (lr = .error () →
      (handleStatusChange st orderId newStatus ⟨.ok (), lr, dr⟩).orders = st.orders) ∧
    (∀ sel : Order, st.selectedOrder = some sel → sel.id = orderId →
      (∀ d : Order, dr = .ok d →
        (handleStatusChange st orderId newStatus ⟨.ok (), lr, dr⟩).selectedOrder = some d) ∧
      (dr = .error () →
        (handleStatusChange st orderId newStatus ⟨.ok (), lr, dr⟩).selectedOrder =
          some { sel with status := newStatus })) ∧
    (∀ sel : Order, st.selectedOrder = some sel → sel.id ≠ orderId →
      (handleStatusChange st orderId newStatus ⟨.ok (), lr, dr⟩).selectedOrder =
        st.selectedOrder) ∧
    (st.selectedOrder = none →
      (handleStatusChange st orderId newStatus ⟨.ok (), lr, dr⟩).selectedOrder = none) := by
  refine ⟨?_, ?_, ?_, ?_, ?_⟩
  · rintro l rfl
    cases hsel : st.selectedOrder with
    | none => simp [handleStatusChange, fetchOrders, hsel]
    | some sel =>
      by_cases hid : sel.id = orderId
      · cases dr <;> simp [handleStatusChange, fetchOrders, hsel, hid]
      · simp [handleStatusChange, fetchOrders, hsel, hid]
  · rintro rfl
    cases hsel : st.selectedOrder with
    | none => simp [handleStatusChange, fetchOrders, hsel]
    | some sel =>
      by_cases hid : sel.id = orderId
      · cases dr <;> simp [handleStatusChange, fetchOrders, hsel, hid]
      · simp [handleStatusChange, fetchOrders, hsel, hid]
  · intro sel hsel hid
    constructor
    · rintro d rfl
      cases lr <;> simp [handleStatusChange, fetchOrders, hsel, hid]
    · rintro rfl
      cases lr <;> simp [handleStatusChange, fetchOrders, hsel, hid]
  · intro sel hsel hid
    cases lr <;> cases dr <;> simp [handleStatusChange, fetchOrders, hsel, hid]
  · intro hsel
    cases lr <;> cases dr <;> simp [handleStatusChange, fetchOrders, hsel]

/-- C6 witness: with the modal open on the matching order and a detail
re-fetch that succeeds with the server's copy, the list equals the
re-fetched list and the modal shows the server's copy. -/
theorem statusChange_success_refetch_witness :
    (exStateWithModal.selectedOrder = some exOrder) ∧ (exOrder.id = 1) ∧
    ((handleStatusChange exStateWithModal 1 ("confirmed")
        ⟨.ok (), .ok [exOrder], .ok exOrder⟩).orders = [exOrder]) ∧
    ((handleStatusChange exStateWithModal 1 ("confirmed")
        ⟨.ok (), .ok [exOrder], .ok exOrder⟩).selectedOrder = some exOrder) :=
  ⟨rfl, rfl,
    (statusChange_success_refetch exStateWithModal 1 ("confirmed")
      (.ok [exOrder]) (.ok exOrder)).1 [exOrder] rfl,
    ((statusChange_success_refetch exStateWithModal 1 ("confirmed")
      (.ok [exOrder]) (.ok exOrder)).2.2.1 exOrder rfl rfl).1 exOrder rfl⟩

/-- C4: all three list filters (orders, loyalty users, users) are
query-case-insensitive: two search strings with the same lowercasing
(one being the other with its letters in another case) match exactly the
same records, so a record matches a query if and only if it matches the
same query with all letters in another case; the filtered lists are
equal as well. -/
theorem filters_case_insensitive (q₁ q₂ : Str) (h : lowerStr q₁ = lowerStr q₂) :
    (∀ o : Order, orderMatches q₁ o = orderMatches q₂ o) ∧
    (∀ l : List Order, ordersFiltered q₁ l = ordersFiltered q₂ l) ∧
    (∀ u : LoyaltyUser, loyaltyMatches q₁ u = loyaltyMatches q₂ u) ∧
    (∀ l : List LoyaltyUser, loyaltyFiltered q₁ l = loyaltyFiltered q₂ l) ∧
    (∀ u : UserItem, userMatches q₁ u = userMatches q₂ u) ∧
    (∀ l : List UserItem, usersFiltered q₁ l = usersFiltered q₂ l) := by
  have h0 := lowerStr_trim_nil h
  have ho : ∀ o : Order, orderMatches q₁ o = orderMatches q₂ o := by
    intro o
    unfold orderMatches
    rw [h]
    exact if_congr h0 rfl rfl
  have hl : ∀ u : LoyaltyUser, loyaltyMatches q₁ u = loyaltyMatches q₂ u := by
    intro u
    unfold loyaltyMatches
    rw [h]
    exact if_congr h0 rfl rfl
  have hu : ∀ u : UserItem, userMatches q₁ u = userMatches q₂ u := by
    intro u
    unfold userMatches
    rw [h]
    exact if_congr h0 rfl rfl
  refine ⟨ho, fun l => ?_, hl, fun l => ?_, hu, fun l => ?_⟩
  · unfold ordersFiltered
    rw [funext ho]
  · unfold loyaltyFiltered
    rw [funext hl]
  · unfold usersFiltered
    rw [funext hu]

/-- C4 witness: the mixed-case queries `AnNa` and `aNnA` agree on the
sample records and lists. -/
theorem filters_case_insensitive_witness :
    (lowerStr (chars ("AnNa")) = lowerStr (chars ("aNnA"))) ∧
    (orderMatches (chars ("AnNa")) exOrder = orderMatches (chars ("aNnA")) exOrder) ∧
    (ordersFiltered (chars ("AnNa")) [exOrder] = ordersFiltered (chars ("aNnA")) [exOrder]) ∧
    (loyaltyMatches (chars ("AnNa")) exLoyUser = loyaltyMatches (chars ("aNnA")) exLoyUser) ∧
    (loyaltyFiltered (chars ("AnNa")) [exLoyUser] =
      loyaltyFiltered (chars ("aNnA")) [exLoyUser]) ∧
    (userMatches (chars ("AnNa")) exUserItem = userMatches (chars ("aNnA")) exUserItem) ∧
    (usersFiltered (chars ("AnNa")) [exUserItem] =
      usersFiltered (chars ("aNnA")) [exUserItem]) :=
  ⟨by decide,
    (filters_case_insensitive (chars ("AnNa")) (chars ("aNnA")) (by decide)).1 exOrder,
    (filters_case_insensitive (chars ("AnNa")) (chars ("aNnA")) (by decide)).2.1 [exOrder],
    (filters_case_insensitive (chars ("AnNa")) (chars ("aNnA")) (by decide)).2.2.1 exLoyUser,
    (filters_case_insensitive (chars ("AnNa")) (chars ("aNnA")) (by decide)).2.2.2.1 [exLoyUser],
    (filters_case_insensitive (chars ("AnNa")) (chars ("aNnA")) (by decide)).2.2.2.2.1 exUserItem,
    (filters_case_insensitive (chars ("AnNa")) (chars ("aNnA")) (by decide)).2.2.2.2.2 [exUserItem]⟩

/-- C10: a search string that is empty or whitespace-only is the identity
on each loaded list: the filtered list equals the full list. -/
theorem blank_search_identity (search : Str) (h : trimStr search = []) :
    (∀ l : List Order, ordersFiltered search l = l) ∧
    (∀ l : List LoyaltyUser, loyaltyFiltered search l = l) ∧
    (∀ l : List UserItem, usersFiltered search l = l) := by
  refine ⟨fun l => ?_, fun l => ?_, fun l => ?_⟩
  · unfold ordersFiltered
    refine List.filter_eq_self.mpr (fun a _ => ?_)
    unfold orderMatches
    rw [if_pos h]
  · unfold loyaltyFiltered
    refine List.filter_eq_self.mpr (fun a _ => ?_)
    unfold loyaltyMatches
    rw [if_pos h]
  · unfold usersFiltered
    refine List.filter_eq_self.mpr (fun a _ => ?_)
    unfold userMatches
    rw [if_pos h]

/-- C10 witness: a whitespace-only search leaves the sample lists intact. -/
theorem blank_search_identity_witness :
    (trimStr (chars ("  ")) = []) ∧
    (ordersFiltered (chars ("  ")) [exOrder] = [exOrder]) ∧
    (loyaltyFiltered (chars ("  ")) [exLoyUser] = [exLoyUser]) ∧
    (usersFiltered (chars ("  ")) [exUserItem] = [exUserItem]) :=
  ⟨by decide,
    (blank_search_identity (chars ("  ")) (by decide)).1 [exOrder],
    (blank_search_identity (chars ("  ")) (by decide)).2.1 [exLoyUser],
    (blank_search_identity (chars ("  ")) (by decide)).2.2 [exUserItem]⟩

/-- C5: a successful loyalty adjustment of `+100` on a selected user whose
displayed balance is `50` leaves the modal displaying balance `150`, and
the displayed history has exactly one new ledger entry, of amount `100`,
in front of the previous entries. -/
theorem adjust_plus100_balance150 (st : LoyaltyViewState) (srv : LoyaltyServer)
    (env : AdjustEnv) (u : LoyaltyUser)
    (hsel : st.selectedUser = some u) (hbal : u.bonusPoints = 50)
    (hamt : st.adjustAmount = chars ("100")) (hok : env.callsOk = true) :
    ((handleAdjust st srv env).1.selectedUser.map LoyaltyUser.bonusPoints = some 150) ∧
    ((handleAdjust st srv env).1.history.length = srv.history.length + 1) ∧
    ((handleAdjust st srv env).1.history.head?.map HistoryEntry.amount = some 100) ∧
    ((handleAdjust st srv env).1.history.tail = srv.history) := by
  have hnum : (jsNumber (chars ("100"))).getD 0 = 100 := by decide
  have hne : chars ("100") ≠ [] := by decide
  unfold handleAdjust
  rw [hsel, hamt, hok]
  simp only [if_neg hne, if_pos rfl, hnum, serverAdjust, if_true]
  refine ⟨?_, ?_, ?_, ?_⟩
  · simp [hbal]
  · simp
  · simp
  · simp

/-- C5 witness: the concrete fixture (balance 50, input `100`). -/
theorem adjust_plus100_balance150_witness :
    (exLoyState.selectedUser = some exLoyUser) ∧ (exLoyUser.bonusPoints = 50) ∧
    (exLoyState.adjustAmount = chars ("100")) ∧ (exAdjEnv.callsOk = true) ∧
    (((handleAdjust exLoyState exLoyServer exAdjEnv).1.selectedUser.map
        LoyaltyUser.bonusPoints = some 150) ∧
      ((handleAdjust exLoyState exLoyServer exAdjEnv).1.history.length =
        exLoyServer.history.length + 1) ∧
      ((handleAdjust exLoyState exLoyServer exAdjEnv).1.history.head?.map
        HistoryEntry.amount = some 100) ∧
      ((handleAdjust exLoyState exLoyServer exAdjEnv).1.history.tail =
        exLoyServer.history)) :=
  ⟨rfl, rfl, rfl, rfl,
    adjust_plus100_balance150 exLoyState exLoyServer exAdjEnv exLoyUser rfl rfl rfl rfl⟩

/-- C7: toggling a catalog flag patches, element by element, exactly the
record with the matching id, changing only the toggled flag: the length
is preserved, records with another id are untouched, the matching record
keeps every other field and its other flags, and the result is a pure
function of the previous local list (no re-fetch).  The same holds for a
constructor item's `inStock` toggle keyed by `id || _id`. -/
theorem toggle_flag_frame (bs : List Bouquet) (targetId : Nat) (f : BouquetFlag)
    (v : Bool) (items : List ConstructorItem) (it : ConstructorItem) :
    ((handleToggle bs targetId f v).length = bs.length) ∧
    (∀ (i : Nat) (b : Bouquet), bs[i]? = some b → b.id ≠ targetId →
      (handleToggle bs targetId f v)[i]? = some b) ∧
    (∀ (i : Nat) (b : Bouquet), bs[i]? = some b → b.id = targetId →
      (handleToggle bs targetId f v)[i]? = some (setFlag b f v)) ∧
    (∀ (b : Bouquet),
      (setFlag b f v).id = b.id ∧ (setFlag b f v).name = b.name ∧
      (setFlag b f v).price = b.price ∧ (setFlag b f v).category = b.category ∧
      (setFlag b f v).images = b.images ∧
      (f ≠ .stockFlag → (setFlag b f v).inStock = b.inStock) ∧
      (f ≠ .hitFlag → (setFlag b f v).isHit = b.isHit) ∧
      (f ≠ .newFlag → (setFlag b f v).isNew = b.isNew)) ∧
    ((handleToggleStock items it).length = items.length) ∧
    (∀ (i : Nat) (x : ConstructorItem), items[i]? = some x → itemKey x ≠ itemKey it →
      (handleToggleStock items it)[i]? = some x) ∧
    (∀ (i : Nat) (x : ConstructorItem), items[i]? = some x → itemKey x = itemKey it →
      (handleToggleStock items it)[i]? =
        some { x with inStock := some (jsNot it.inStock) } ∧
      ({ x with inStock := some (jsNot it.inStock) } : ConstructorItem).id = x.id ∧
      ({ x with inStock := some (jsNot it.inStock) } : ConstructorItem).mongoId = x.mongoId ∧
      ({ x with inStock := some (jsNot it.inStock) } : ConstructorItem).name = x.name ∧
      ({ x with inStock := some (jsNot it.inStock) } : ConstructorItem).price = x.price) := by
  refine ⟨?_, ?_, ?_, ?_, ?_, ?_, ?_⟩
  · unfold handleToggle
    exact List.length_map bs _
  · intro i b hb hid
    unfold handleToggle
    rw [List.getElem?_map, hb]
    simp [hid]
  · intro i b hb hid
    unfold handleToggle
    rw [List.getElem?_map, hb]
    simp [hid]
  · intro b
    cases f <;> simp [setFlag]
  · unfold handleToggleStock
    exact List.length_map items _
  · intro i x hx hkey
    unfold handleToggleStock
    rw [List.getElem?_map, hx]
    simp [hkey]
  · intro i x hx hkey
    unfold handleToggleStock
    rw [List.getElem?_map, hx]
    simp [hkey]

/-- C7 witness: toggling `isHit` on bouquet 8 patches only that record's
flag and leaves bouquet 9 untouched; same for constructor item `f1`. -/
theorem toggle_flag_frame_witness :
    ([exBouquet, exBouquet2][0]? = some exBouquet) ∧ (exBouquet.id = 8) ∧
    ([exBouquet, exBouquet2][1]? = some exBouquet2) ∧ (exBouquet2.id ≠ 8) ∧
    ((handleToggle [exBouquet, exBouquet2] 8 BouquetFlag.hitFlag true)[0]? =
      some (setFlag exBouquet BouquetFlag.hitFlag true)) ∧
    ((handleToggle [exBouquet, exBouquet2] 8 BouquetFlag.hitFlag true)[1]? =
      some exBouquet2) ∧
    ((setFlag exBouquet BouquetFlag.hitFlag true).inStock = exBouquet.inStock) ∧
    ([exItem, exItem2][1]? = some exItem2) ∧ (itemKey exItem2 ≠ itemKey exItem) ∧
    ((handleToggleStock [exItem, exItem2] exItem)[1]? = some exItem2) :=
  ⟨rfl, rfl, rfl, by decide, by decide,
    (toggle_flag_frame [exBouquet, exBouquet2] 8 BouquetFlag.hitFlag true
      [exItem, exItem2] exItem).2.1 1 exBouquet2 rfl (by decide),
    ((toggle_flag_frame [exBouquet, exBouquet2] 8 BouquetFlag.hitFlag true
      [exItem, exItem2] exItem).2.2.2.1 exBouquet).2.2.2.2.2.1 (by decide),
    rfl, by decide,
    (toggle_flag_frame [exBouquet, exBouquet2] 8 BouquetFlag.hitFlag true
      [exItem, exItem2] exItem).2.2.2.2.2.1 1 exItem2 rfl (by decide)⟩

/-- C8: when the startup authentication check fails, the token stored
under `rosa_admin_token` is removed, the authentication flag becomes
false, exactly one `GET /auth/me` request was made (no retry), and the
unauthenticated route table renders the login screen (directly or after
its single redirect) for every path. -/
theorem authFailure_clears_token_and_routes_login :
    ∀ t : String,
      (appStartup (some t) false).storedToken = none ∧
      (appStartup (some t) false).isAuth = some false ∧
      (appStartup (some t) false).authMeRequests = 1 ∧
      ∀ path : String, resolveUnauthed path = UnauthView.loginScreen := by
  intro t
  refine ⟨rfl, rfl, rfl, ?_⟩
  intro path
  unfold resolveUnauthed routeUnauthed
  by_cases h : path = "/login" <;> simp [h]

/-- C9: the broadcast handler never issues a request for an empty or
whitespace-only message; every issued request carries the trimmed input
as payload; and the send button is disabled while sending and for a
blank message. -/
theorem broadcast_send_guard :
    (∀ (m : Str) (c : Bool), trimStr m = [] → handleSend m c = none) ∧
    (∀ (m p : Str) (c : Bool), handleSend m c = some p →
      trimStr m ≠ [] ∧ p = trimStr m) ∧
    (∀ m : Str, trimStr m = [] → sendDisabled false m = true) ∧
    (∀ m : Str, sendDisabled true m = true) := by
  refine ⟨?_, ?_, ?_, ?_⟩
  · intro m c h
    unfold handleSend
    rw [if_pos h]
  · intro m p c h
    unfold handleSend at h
    by_cases ht : trimStr m = []
    · rw [if_pos ht] at h
      exact absurd h (by simp)
    · rw [if_neg ht] at h
      refine ⟨ht, ?_⟩
      cases c with
      | true => simpa using h.symm
      | false => simp at h
  · intro m h
    unfold sendDisabled
    simp [h]
  · intro m
    unfold sendDisabled
    simp

/-- C9 witness: a whitespace-only message sends nothing and disables the
button; a padded message sends its trimmed payload. -/
theorem broadcast_send_guard_witness :
    (trimStr (chars (" \n ")) = []) ∧
    (handleSend (chars (" \n ")) true = none) ∧
    (sendDisabled false (chars (" \n ")) = true) ∧
    (handleSend (chars (" hi ")) true = some (chars ("hi"))) ∧
    (trimStr (chars (" hi ")) ≠ [] ∧ chars ("hi") = trimStr (chars (" hi "))) :=
  ⟨by decide,
    broadcast_send_guard.1 (chars (" \n ")) true (by decide),
    broadcast_send_guard.2.2.1 (chars (" \n ")) (by decide),
    by decide,
    broadcast_send_guard.2.1 (chars (" hi ")) (chars ("hi")) true (by decide)⟩
